/-
Verification of the training / evaluation pipeline in `src/train.py` of
AbeleMM/remla-baseline-project against its natural-language specification.

The script's own logic is tiny; its observable behaviour is determined by
the exact scikit-learn calls it makes.  We therefore shallowly embed:
  * the metric functions exactly as invoked on the argument shapes the
    script passes (2-D multilabel {0,1} indicator `y_val`, 2-D {0,1}
    `pred_labels`, 2-D real `pred_scores`), over `ℚ`;
  * `MultiLabelBinarizer(classes=...).fit_transform`;
  * `OneVsRestClassifier(LogisticRegression(...)).fit`, with the inner
    binary fit kept abstract (a function parameter), since the claims are
    about the decomposition, not the numeric optimiser;
  * `write_evaluation_scores` as a function from its inputs to the output
    file path, the file's final content and a success flag (the source
    writes each metric line one at a time inside `with open(...)`, so on a
    metric exception the lines already written persist).
Fallible library calls are modelled with `Except String`.
-/
import Mathlib

set_option maxRecDepth 8000

/-- Number of columns of a matrix stored as a list of rows: width of the
first row (numpy arrays as produced here are rectangular; the metric
functions guard shape agreement separately). -/
def ncols {α : Type} (m : List (List α)) : Nat :=
  (m.headD []).length

/-- Column `j` of a Bool matrix stored as a list of rows. -/
def colB (m : List (List Bool)) (j : Nat) : List Bool :=
  m.map (fun r => r.getD j false)

/-- Column `j` of a rational matrix stored as a list of rows. -/
def colQ (m : List (List ℚ)) (j : Nat) : List ℚ :=
  m.map (fun r => r.getD j 0)

/-- Shape agreement between two matrices (same row count, rows pairwise of
equal length), the consistency check scikit-learn's input validation
performs before computing a metric on a pair of 2-D arrays. -/
def sameShape {α β : Type} (a : List (List α)) (b : List (List β)) : Bool :=
  a.length == b.length && (a.zip b).all (fun x => x.1.length == x.2.length)

/-- Interpretation of a {0,1} indicator matrix as a numeric matrix, as
happens when `train.py` line 51 passes the integer array `pred_labels`
where a score array is expected. -/
def matToScores (m : List (List Bool)) : List (List ℚ) :=
  m.map (fun r => r.map (fun b => if b then (1 : ℚ) else 0))

/-- Exact row match between a true row and a predicted row:
`sklearn.metrics.accuracy_score` on multilabel input counts a sample as
correct iff the rows differ in no position. -/
def rowExactMatch (t p : List Bool) : Bool :=
  (t.zip p).all (fun x => x.1 == x.2)

/-- Embedding of `sklearn.metrics.accuracy_score(y_val, pred_labels)` as
called at `train.py` line 45 on multilabel indicator matrices: the
fraction of samples whose predicted row matches the true row exactly. -/
def accuracy_score (y p : List (List Bool)) : Except String ℚ :=
  if sameShape y p then
    Except.ok ((((y.zip p).countP (fun x => rowExactMatch x.1 x.2)) : ℚ) / y.length)
  else
    Except.error "Found input variables with inconsistent numbers of samples"

/-- Count of label-wise true positives of one label column. -/
def truePos (t p : List Bool) : Nat :=
  (t.zip p).countP (fun x => x.1 && x.2)

/-- Count of label-wise false positives of one label column. -/
def falsePos (t p : List Bool) : Nat :=
  (t.zip p).countP (fun x => !x.1 && x.2)

/-- Count of label-wise false negatives of one label column. -/
def falseNeg (t p : List Bool) : Nat :=
  (t.zip p).countP (fun x => x.1 && !x.2)

/-- Per-label binary F1 as scikit-learn computes it: `2*tp/(2*tp+fp+fn)`,
defined as `0` when the denominator is `0`. -/
def f1Binary (t p : List Bool) : ℚ :=
  let d : ℚ := 2 * truePos t p + falsePos t p + falseNeg t p
  if d = 0 then 0 else 2 * (truePos t p : ℚ) / d

/-- Number of positive true examples of one label column (its support). -/
def labelSupport (t : List Bool) : Nat :=
  t.countP (fun b => b)

/-- Embedding of `sklearn.metrics.f1_score(y_val, pred_labels,
average="weighted")` as called at `train.py` line 47: per-label F1
averaged weighted by each label's true support (0 when total support
is 0). -/
def f1_score (y p : List (List Bool)) : Except String ℚ :=
  if sameShape y p then
    let L := ncols y
    let s : ℚ := ((List.range L).map (fun j => (labelSupport (colB y j) : ℚ))).sum
    if s = 0 then Except.ok 0
    else
      Except.ok
        (((List.range L).map
            (fun j => (labelSupport (colB y j) : ℚ) * f1Binary (colB y j) (colB p j))).sum / s)
  else
    Except.error "Found input variables with inconsistent numbers of samples"

/-- Per-label (binary) average precision exactly as
`sklearn.metrics.average_precision_score` computes it
(`-sum(diff(recall) * precision)` over the distinct-threshold
precision-recall curve).  Writing `tp≥(t)`, `tp>(t)` for the true
positives at scores `≥ t` resp. `> t` and `pp(t)` for the number of
scores `≥ t`, the step sum equals
`Σ over distinct thresholds t of (tp≥(t) - tp>(t))/P * (tp≥(t)/pp(t))`,
which needs no explicit sorting of thresholds.  When the column has no
positive sample, recall is the constant 1 (scikit-learn warns and pins
it), so the sum of recall increments, and hence the score, is 0. -/
def apBinary (t : List Bool) (s : List ℚ) : ℚ :=
  let P := labelSupport t
  if P = 0 then 0
  else
    let pairs := t.zip s
    (s.dedup).foldr
      (fun th acc =>
        let tpGe := pairs.countP (fun x => x.1 && decide (th ≤ x.2))
        let tpGt := pairs.countP (fun x => x.1 && decide (th < x.2))
        let pp := s.countP (fun v => decide (th ≤ v))
        acc + ((tpGe : ℚ) - (tpGt : ℚ)) / P * ((tpGe : ℚ) / pp))
      0

/-- Embedding of `sklearn.metrics.average_precision_score(y_val, Z,
average="macro")` as called at `train.py` line 51 on a multilabel
indicator `y_val`: per-label average precision of each score column
against each true column, averaged unweighted over the labels. -/
def average_precision_score (y : List (List Bool)) (s : List (List ℚ)) : Except String ℚ :=
  if sameShape y s then
    let L := ncols y
    Except.ok (((List.range L).map (fun j => apBinary (colB y j) (colQ s j))).sum / L)
  else
    Except.error "Found input variables with inconsistent numbers of samples"

/-- Binary ROC AUC of positive scores vs negative scores.  scikit-learn
computes the trapezoidal area under the ROC curve, which for a finite
sample equals the normalised Mann-Whitney statistic used here: the
fraction of (positive, negative) pairs ranked correctly, ties counting
one half. -/
def mwAuc (pos neg : List ℚ) : ℚ :=
  ((pos.map
      (fun p =>
        (neg.map (fun n => if n < p then (1 : ℚ) else if n = p then 1 / 2 else 0)).sum)).sum)
    / ((pos.length : ℚ) * (neg.length : ℚ))

/-- Per-label binary ROC AUC as `sklearn.metrics._binary_roc_auc_score`:
fails when only one class is present in the true column. -/
def aucBinary (t : List Bool) (s : List ℚ) : Except String ℚ :=
  let pos := (t.zip s).filterMap (fun x => if x.1 then some x.2 else none)
  let neg := (t.zip s).filterMap (fun x => if x.1 then none else some x.2)
  if pos.length = 0 ∨ neg.length = 0 then
    Except.error "Only one class present in y_true. ROC AUC score is not defined in that case."
  else
    Except.ok (mwAuc pos neg)

/-- Embedding of `sklearn.metrics.roc_auc_score(y_val, pred_scores,
multi_class="ovo")` as called at `train.py` line 56.  `y_val` there is a
2-D {0,1} multilabel indicator matrix, so `type_of_target` is
`multilabel-indicator` and `roc_auc_score` takes its multilabel branch:
the `multi_class` argument is never read on that branch, and the result
is the per-label binary AUC averaged unweighted (`average="macro"`,
the default) over the labels, failing on the first constant true
column. -/
def roc_auc_score (y : List (List Bool)) (s : List (List ℚ)) : Except String ℚ :=
  if sameShape y s then
    match (List.range (ncols y)).mapM (fun j => aucBinary (colB y j) (colQ s j)) with
    | Except.error e => Except.error e
    | Except.ok aucs => Except.ok (aucs.sum / (ncols y : ℚ))
  else
    Except.error "Found input variables with inconsistent numbers of samples"

/-- Content written into the report file by the body of the `with open`
block of `write_evaluation_scores` (`train.py` lines 44-58), together
with a flag telling whether the block ran to completion.  The source
writes one line per metric immediately after computing it, so when a
later metric computation raises, the lines already written remain in the
file and the function aborts: the accumulated prefix is the file's final
content. -/
def evalReportContent (yVal predLabels : List (List Bool)) (predScores : List (List ℚ)) :
    String × Bool :=
  match accuracy_score yVal predLabels with
  | Except.error _ => ("", false)
  | Except.ok a =>
    let c1 := "Accuracy score: " ++ toString a ++ "\n"
    match f1_score yVal predLabels with
    | Except.error _ => (c1, false)
    | Except.ok f =>
      let c2 := c1 ++ "F1 score: " ++ toString f ++ "\n"
      match average_precision_score yVal (matToScores predLabels) with
      | Except.error _ => (c2, false)
      | Except.ok p =>
        let c3 := c2 ++ "Average precision score: " ++ toString p ++ "\n"
        match roc_auc_score yVal predScores with
        | Except.error _ => (c3, false)
        | Except.ok r => (c3 ++ "ROC AUC score: " ++ toString r ++ "\n", true)

/-- Result of one call of `write_evaluation_scores`: the path the file is
created at, its final content, and whether every metric succeeded. -/
structure WriteResult where
  path : String
  content : String
  ok : Bool

/-- Embedding of `write_evaluation_scores` (`train.py` lines 34-58): the
file is opened at `"output/" + f_name` (truncated), then the four metric
lines are written one at a time. -/
def write_evaluation_scores (fName : String) (yVal predLabels : List (List Bool))
    (predScores : List (List ℚ)) : WriteResult :=
  let c := evalReportContent yVal predLabels predScores
  { path := "output/" ++ fName, content := c.1, ok := c.2 }

/-- One row of `MultiLabelBinarizer._transform` under an explicit
`classes=` argument: column `i` is set iff `classes[i]` occurs in the
example's label set.  Labels absent from `classes` find no entry in the
class mapping and are skipped (scikit-learn emits a "will be ignored"
warning, not an error). -/
def binarizeRow (classes : List String) (labels : List String) : List Bool :=
  classes.map (fun c => labels.contains c)

/-- Embedding of `MultiLabelBinarizer(classes=cs).fit_transform(sets)` as
used in `main` (`train.py` lines 67-69): `fit` rejects a duplicated
`classes` argument, otherwise `transform` maps every label set to its
indicator row over exactly the given classes. -/
def mlb_fit_transform (classes : List String) (labelSets : List (List String)) :
    Except String (List (List Bool)) :=
  if classes.dedup.length < classes.length then
    Except.error "The classes argument contains duplicate classes."
  else
    Except.ok (labelSets.map (binarizeRow classes))

/-- Stable insertion of one element into an ascending list, the building
block of the model of Python's `sorted`. -/
def insertAsc (x : String) : List String → List String
  | [] => [x]
  | y :: ys => if x ≤ y then x :: y :: ys else y :: insertAsc x ys

/-- Model of Python's `sorted` on a list of strings: ascending stable
sort. -/
def pySorted (l : List String) : List String :=
  l.foldr insertAsc []

/-- Embedding of the binarization fragment of `main` (`train.py` lines
67-69): one `MultiLabelBinarizer` is constructed with
`classes=sorted(sorted_tags)` and its `fit_transform` is applied first to
the train label sets, then to the validation label sets.  Because
`classes` is given explicitly, both calls binarize against the same
ordered class list. -/
def mainBinarize (sortedTags : List String) (yTrain yVal : List (List String)) :
    Except String (List (List Bool) × List (List Bool)) :=
  let classes := pySorted sortedTags
  match mlb_fit_transform classes yTrain with
  | Except.error e => Except.error e
  | Except.ok a =>
    match mlb_fit_transform classes yVal with
    | Except.error e => Except.error e
    | Except.ok b => Except.ok (a, b)

/-- Hyperparameters `train_classifier` passes to every
`LogisticRegression` it creates (`train.py` line 27); `dual=False` and
`solver="liblinear"` are fixed there and carry no information for the
claims. -/
structure LogRegParams where
  penalty : String
  C : ℚ
deriving DecidableEq

/-- Embedding of `OneVsRestClassifier(...).fit(X, Y)` (`train.py` lines
28-29): one clone of the base estimator is fitted per column of `Y` on
`(X, Y[:, j])`.  The numeric fitting of a single binary logistic
regression is kept abstract as `fitBin`; what matters for the claims is
which data and hyperparameters each per-label fit receives. -/
def oneVsRestFit {α : Type} (fitBin : LogRegParams → List (List ℚ) → List Bool → α)
    (params : LogRegParams) (X : List (List ℚ)) (Y : List (List Bool)) : List α :=
  (List.range (ncols Y)).map (fun j => fitBin params X (colB Y j))

/-- Embedding of `train_classifier` (`train.py` lines 15-31) with the
source's default arguments `penalty="l1"`, `C=1`: scikit-learn's input
validation inside `fit` raises when `X` and `Y` disagree on the number
of samples; otherwise the one-vs-rest ensemble is fitted column by
column. -/
def train_classifier {α : Type} (fitBin : LogRegParams → List (List ℚ) → List Bool → α)
    (X : List (List ℚ)) (Y : List (List Bool))
    (penalty : String := "l1") (C : ℚ := 1) : Except String (List α) :=
  if X.length ≠ Y.length then
    Except.error "Found input variables with inconsistent numbers of samples"
  else
    Except.ok (oneVsRestFit fitBin { penalty := penalty, C := C } X Y)

/-- Directed one-vs-one AUC of label `j` against label `k`, following the
spec's words for the fourth metric: the score column of `j` ranking the
examples carrying label `j` (and not `k`) above those carrying label `k`
(and not `j`); undefined when either side is empty. -/
def dirAuc (y : List (List Bool)) (s : List (List ℚ)) (j k : Nat) : Option ℚ :=
  let rows := y.zip s
  let pos := rows.filterMap
    (fun r => if (r.1.getD j false) && !(r.1.getD k false) then some (r.2.getD j 0) else none)
  let neg := rows.filterMap
    (fun r => if (r.1.getD k false) && !(r.1.getD j false) then some (r.2.getD j 0) else none)
  if pos.length = 0 ∨ neg.length = 0 then none else some (mwAuc pos neg)

/-- Definition following the spec's words (§4.4, metric 4), for comparison
with `roc_auc_score` as the code actually computes it: "multi-class AUC
computed via one-vs-one pairwise comparison among labels using
pred_scores, averaged across all label pairs" — for each unordered label
pair the two directed one-vs-one AUCs are averaged, and the pair values
are averaged unweighted across all pairs. -/
def specPairwiseOvoRocAuc (y : List (List Bool)) (s : List (List ℚ)) : Option ℚ :=
  let L := ncols y
  let pairList := (List.range L).flatMap
    (fun j => ((List.range L).filter (fun k => j < k)).map (fun k => (j, k)))
  do
    let vals ← pairList.mapM (fun jk => do
      let a ← dirAuc y s jk.1 jk.2
      let b ← dirAuc y s jk.2 jk.1
      return (a + b) / 2)
    return vals.sum / pairList.length

/-- Helper: on rows of equal length, `rowExactMatch` decides row
equality. -/
theorem rowExactMatch_iff {t p : List Bool} (h : t.length = p.length) :
    rowExactMatch t p = true ↔ t = p := by
  induction t generalizing p with
  | nil =>
    cases p with
    | nil => simp [rowExactMatch]
    | cons b bs => simp at h
  | cons a as ih =>
    cases p with
    | nil => simp at h
    | cons b bs =>
      have h' : as.length = bs.length := by simpa using h
      have hrec := ih h'
      simp only [rowExactMatch, List.zip_cons_cons, List.all_cons, Bool.and_eq_true,
        beq_iff_eq, List.cons.injEq] at hrec ⊢
      exact and_congr Iff.rfl hrec

/-- Helper: every element of `l.zip l` is a diagonal pair. -/
theorem zip_self_mem {α : Type} {l : List α} {x : α × α} (hx : x ∈ l.zip l) :
    x.1 = x.2 := by
  induction l with
  | nil => simp at hx
  | cons a as ih =>
    rw [List.zip_cons_cons] at hx
    rcases List.mem_cons.mp hx with h | h
    · subst h; rfl
    · exact ih h

/-- Helper: `List.contains` on strings agrees with decidable
membership. -/
theorem contains_eq_decide_mem (ls : List String) (c : String) :
    ls.contains c = decide (c ∈ ls) := by
  by_cases hc : c ∈ ls
  · have h1 : ls.contains c = true := List.elem_iff.mpr hc
    simp [h1, hc]
  · have h1 : ¬ ls.contains c = true := fun hcc => hc (List.elem_iff.mp hcc)
    simp only [Bool.not_eq_true] at h1
    simp [h1, hc]

/-- C10: for every filename `f_name`, `write_evaluation_scores` writes the
report to the fixed path `"output/" + f_name`; the output directory
prefix is hardcoded inside the evaluation reporter. -/
theorem output_path_hardcoded (fName : String) (yVal predLabels : List (List Bool))
    (predScores : List (List ℚ)) :
    (write_evaluation_scores fName yVal predLabels predScores).path = "output/" ++ fName := rfl

/-- C9: for every feature matrix and label indicator matrix whose row
counts differ, training fails with an explicit error (scikit-learn's
inconsistent-sample-count validation error) rather than silently
coercing shapes. -/
theorem train_row_mismatch_error {α : Type}
    (fitBin : LogRegParams → List (List ℚ) → List Bool → α)
    (X : List (List ℚ)) (Y : List (List Bool)) (penalty : String) (C : ℚ)
    (h : X.length ≠ Y.length) :
    train_classifier fitBin X Y penalty C
      = Except.error "Found input variables with inconsistent numbers of samples" := by
  unfold train_classifier
  rw [if_pos h]

/-- C9 witness: a 1-row feature matrix against a 0-row label matrix. -/
theorem train_row_mismatch_error_witness :
    ([[(1 : ℚ)]] : List (List ℚ)).length ≠ ([] : List (List Bool)).length ∧
      train_classifier (fun (_ : LogRegParams) (_ : List (List ℚ)) (_ : List Bool) => true)
          [[(1 : ℚ)]] [] "l2" 10
        = Except.error "Found input variables with inconsistent numbers of samples" :=
  ⟨by decide, train_row_mismatch_error _ _ _ _ _ (by decide)⟩

/-- C8: training decomposes one-vs-rest: the fitted ensemble has one
classifier per label column, classifier `j` is obtained by fitting the
base binary classifier on `(X, column j)` with the shared penalty and
inverse-regularization strength, and classifier `j` is unchanged by any
change to the other columns of the label matrix. -/
theorem one_vs_rest_decomposition {α : Type}
    (fitBin : LogRegParams → List (List ℚ) → List Bool → α)
    (X : List (List ℚ)) (Y : List (List Bool)) (penalty : String) (C : ℚ) (ens : List α)
    (h : train_classifier fitBin X Y penalty C = Except.ok ens) :
    ens.length = ncols Y ∧
      (∀ j, j < ncols Y →
        ens[j]? = some (fitBin { penalty := penalty, C := C } X (colB Y j))) ∧
      (∀ (Y' : List (List Bool)) (ens' : List α),
        train_classifier fitBin X Y' penalty C = Except.ok ens' →
        ∀ j, j < ncols Y → j < ncols Y' → colB Y' j = colB Y j → ens'[j]? = ens[j]?) := by
  have hens : ens = oneVsRestFit fitBin { penalty := penalty, C := C } X Y := by
    unfold train_classifier at h
    split at h
    · exact absurd h (by simp)
    · exact (Except.ok.inj h).symm
  subst hens
  refine ⟨by simp [oneVsRestFit], ?_, ?_⟩
  · intro j hj
    simp [oneVsRestFit, List.getElem?_map, List.getElem?_range hj]
  · intro Y' ens' h' j hj hj' hcol
    have hens' : ens' = oneVsRestFit fitBin { penalty := penalty, C := C } X Y' := by
      unfold train_classifier at h'
      split at h'
      · exact absurd h' (by simp)
      · exact (Except.ok.inj h').symm
    subst hens'
    simp [oneVsRestFit, List.getElem?_map, List.getElem?_range hj, List.getElem?_range hj',
      hcol]

/-- C8 witness: a concrete two-label training set with an abstract binary
fit recording its arguments. -/
theorem one_vs_rest_decomposition_witness :
    train_classifier (fun (pr : LogRegParams) (_ : List (List ℚ)) (c : List Bool) => (pr, c))
        [[(1 : ℚ)], [2]] [[true, false], [false, true]] "l2" 10
      = Except.ok
          [({ penalty := "l2", C := 10 }, [true, false]),
           ({ penalty := "l2", C := 10 }, [false, true])] ∧
      (([({ penalty := "l2", C := 10 }, [true, false]),
          ({ penalty := "l2", C := 10 }, [false, true])] :
            List (LogRegParams × List Bool)).length
          = ncols [[true, false], [false, true]] ∧
        (∀ j, j < ncols [[true, false], [false, true]] →
          ([({ penalty := "l2", C := 10 }, [true, false]),
            ({ penalty := "l2", C := 10 }, [false, true])] :
              List (LogRegParams × List Bool))[j]?
            = some ((fun (pr : LogRegParams) (_ : List (List ℚ)) (c : List Bool) => (pr, c))
                { penalty := "l2", C := 10 } [[(1 : ℚ)], [2]]
                (colB [[true, false], [false, true]] j))) ∧
        (∀ (Y' : List (List Bool)) (ens' : List (LogRegParams × List Bool)),
          train_classifier
              (fun (pr : LogRegParams) (_ : List (List ℚ)) (c : List Bool) => (pr, c))
              [[(1 : ℚ)], [2]] Y' "l2" 10 = Except.ok ens' →
          ∀ j, j < ncols [[true, false], [false, true]] → j < ncols Y' →
            colB Y' j = colB [[true, false], [false, true]] j →
            ens'[j]?
              = ([({ penalty := "l2", C := 10 }, [true, false]),
                  ({ penalty := "l2", C := 10 }, [false, true])] :
                    List (LogRegParams × List Bool))[j]?)) :=
  ⟨by with_unfolding_all rfl,
    one_vs_rest_decomposition
      (fun (pr : LogRegParams) (_ : List (List ℚ)) (c : List Bool) => (pr, c))
      [[(1 : ℚ)], [2]] [[true, false], [false, true]] "l2" 10
      [({ penalty := "l2", C := 10 }, [true, false]),
       ({ penalty := "l2", C := 10 }, [false, true])]
      (by with_unfolding_all rfl)⟩

/-- C6: on indicator matrices of equal shape the accuracy metric is
strict multi-label exact match: the fraction of rows whose predicted row
equals the true row; it is exactly 1 on identical matrices (with at
least one row) and exactly 0 when no row matches. -/
theorem accuracy_exact_match (y p : List (List Bool)) (h : sameShape y p = true) :
    accuracy_score y p
        = Except.ok (((y.zip p).countP (fun x => decide (x.1 = x.2)) : ℚ) / y.length) ∧
      (y ≠ [] → p = y → accuracy_score y p = Except.ok 1) ∧
      ((∀ x ∈ y.zip p, x.1 ≠ x.2) → accuracy_score y p = Except.ok 0) := by
  have hall : ∀ x ∈ y.zip p, x.1.length = x.2.length := by
    have h2 := (Bool.and_eq_true _ _).mp h
    intro x hx
    have := List.all_eq_true.mp h2.2 x hx
    simpa using this
  have hcount : (y.zip p).countP (fun x => rowExactMatch x.1 x.2)
      = (y.zip p).countP (fun x => decide (x.1 = x.2)) := by
    refine List.countP_congr ?_
    intro x hx
    simp only [decide_eq_true_eq]
    exact rowExactMatch_iff (hall x hx)
  refine ⟨?_, ?_, ?_⟩
  · unfold accuracy_score
    rw [if_pos h, hcount]
  · intro hy hpy
    subst hpy
    unfold accuracy_score
    rw [if_pos h, hcount]
    have hlen : (p.zip p).countP (fun x => decide (x.1 = x.2)) = (p.zip p).length := by
      refine List.countP_eq_length.mpr ?_
      intro x hx
      simp [zip_self_mem hx]
    rw [hlen, List.length_zip, Nat.min_self]
    have hne : (p.length : ℚ) ≠ 0 := by
      have h0 : p.length ≠ 0 := by
        intro h0
        exact hy (List.length_eq_zero.mp h0)
      exact_mod_cast h0
    rw [div_self hne]
  · intro hno
    unfold accuracy_score
    rw [if_pos h, hcount]
    have hzero : (y.zip p).countP (fun x => decide (x.1 = x.2)) = 0 := by
      refine List.countP_eq_zero.mpr ?_
      intro x hx
      simpa using hno x hx
    rw [hzero]
    simp

/-- C6 witness: a 2-row pair with one exact row match. -/
theorem accuracy_exact_match_witness :
    sameShape [[true, false], [false, true]] [[true, false], [true, true]] = true ∧
      (accuracy_score [[true, false], [false, true]] [[true, false], [true, true]]
          = Except.ok
              ((([[true, false], [false, true]].zip [[true, false], [true, true]]).countP
                  (fun x => decide (x.1 = x.2)) : ℚ)
                / ([[true, false], [false, true]] : List (List Bool)).length) ∧
        (([[true, false], [false, true]] : List (List Bool)) ≠ [] →
          [[true, false], [true, true]] = [[true, false], [false, true]] →
          accuracy_score [[true, false], [false, true]] [[true, false], [true, true]]
            = Except.ok 1) ∧
        ((∀ x ∈ [[true, false], [false, true]].zip [[true, false], [true, true]],
            x.1 ≠ x.2) →
          accuracy_score [[true, false], [false, true]] [[true, false], [true, true]]
            = Except.ok 0)) :=
  ⟨by decide,
    accuracy_exact_match [[true, false], [false, true]] [[true, false], [true, true]]
      (by decide)⟩

/-- C3 counterexample: binarizing the label set containing "z" against the
vocabulary ["a", "b"] does not fail: it succeeds and produces exactly the
row that the label set without "z" produces, so the unknown label is
silently dropped rather than raising an error. -/
theorem unknown_label_ignored_cex :
    mlb_fit_transform ["a", "b"] [["a", "z"]] = Except.ok [[true, false]] ∧
      mlb_fit_transform ["a", "b"] [["a"]] = Except.ok [[true, false]] := by
  constructor <;> with_unfolding_all rfl

/-- C3 (amended): for every duplicate-free vocabulary and every sequence
of label sets, a label absent from the vocabulary is silently ignored by
binarization (scikit-learn merely warns): the call succeeds, and its
result is unchanged by removing the unknown label. -/
theorem unknown_label_ignored (classes : List String) (x : String) (s : List String)
    (rest : List (List String)) (hnd : classes.Nodup) (hx : x ∉ classes) :
    mlb_fit_transform classes ((x :: s) :: rest) = mlb_fit_transform classes (s :: rest) ∧
      ∃ out, mlb_fit_transform classes ((x :: s) :: rest) = Except.ok out := by
  have hguard : ¬ classes.dedup.length < classes.length := by
    rw [List.dedup_eq_self.mpr hnd]
    exact lt_irrefl _
  have hrow : binarizeRow classes (x :: s) = binarizeRow classes s := by
    refine List.map_congr_left ?_
    intro c hc
    have hcx : ¬ (c == x) = true := by
      simp only [beq_iff_eq]
      rintro rfl
      exact hx hc
    simp [List.contains_cons]
    intro hxc
    exact absurd (by simp [hxc]) hcx
  constructor
  · unfold mlb_fit_transform
    rw [if_neg hguard, if_neg hguard]
    simp [hrow]
  · exact ⟨((x :: s) :: rest).map (binarizeRow classes), by
      unfold mlb_fit_transform
      rw [if_neg hguard]⟩

/-- C3 witness: vocabulary ["a", "b"], unknown label "z" prepended to the
label set ["a"]. -/
theorem unknown_label_ignored_witness :
    (["a", "b"] : List String).Nodup ∧ "z" ∉ (["a", "b"] : List String) ∧
      (mlb_fit_transform ["a", "b"] [["z", "a"]] = mlb_fit_transform ["a", "b"] [["a"]] ∧
        ∃ out, mlb_fit_transform ["a", "b"] [["z", "a"]] = Except.ok out) :=
  ⟨by decide, by decide, unknown_label_ignored ["a", "b"] "z" ["a"] [] (by decide) (by decide)⟩

/-- C5: when the binarization step of `main` succeeds, both the train and
the validation label sets are binarized against one and the same ordered
class list (the sorted tag vocabulary), so column `i` of either indicator
matrix means membership of the same label `classes[i]`. -/
theorem shared_vocabulary_column_alignment (tags : List String)
    (yTr yVl : List (List String)) (a b : List (List Bool))
    (h : mainBinarize tags yTr yVl = Except.ok (a, b)) :
    ∃ classes : List String, classes = pySorted tags ∧
      a = yTr.map (binarizeRow classes) ∧ b = yVl.map (binarizeRow classes) ∧
      ∀ (ls : List String) (i : Nat) (hi : i < classes.length),
        (binarizeRow classes ls)[i]? = some (decide (classes[i] ∈ ls)) := by
  by_cases hdup : (pySorted tags).dedup.length < (pySorted tags).length
  · have e1 : mlb_fit_transform (pySorted tags) yTr
        = Except.error "The classes argument contains duplicate classes." := by
      unfold mlb_fit_transform
      rw [if_pos hdup]
    simp only [mainBinarize] at h
    rw [e1] at h
    exact absurd h (by simp)
  · have e1 : mlb_fit_transform (pySorted tags) yTr
        = Except.ok (yTr.map (binarizeRow (pySorted tags))) := by
      unfold mlb_fit_transform
      rw [if_neg hdup]
    have e2 : mlb_fit_transform (pySorted tags) yVl
        = Except.ok (yVl.map (binarizeRow (pySorted tags))) := by
      unfold mlb_fit_transform
      rw [if_neg hdup]
    simp only [mainBinarize] at h
    rw [e1, e2] at h
    have hab : (yTr.map (binarizeRow (pySorted tags)), yVl.map (binarizeRow (pySorted tags)))
        = (a, b) := Except.ok.inj h
    refine ⟨pySorted tags, rfl, (congrArg Prod.fst hab).symm, (congrArg Prod.snd hab).symm, ?_⟩
    intro ls i hi
    simp [binarizeRow, List.getElem?_map, List.getElem?_eq_getElem hi,
      contains_eq_decide_mem]

/-- C5 witness: tags ["b", "a"], one train and one validation label
set. -/
theorem shared_vocabulary_column_alignment_witness :
    mainBinarize ["b", "a"] [["a"]] [["b"]]
        = Except.ok ([[true, false]], [[false, true]]) ∧
      ∃ classes : List String, classes = pySorted ["b", "a"] ∧
        [[true, false]] = [["a"]].map (binarizeRow classes) ∧
        [[false, true]] = [["b"]].map (binarizeRow classes) ∧
        ∀ (ls : List String) (i : Nat) (hi : i < classes.length),
          (binarizeRow classes ls)[i]? = some (decide (classes[i] ∈ ls)) :=
  ⟨by with_unfolding_all rfl,
    shared_vocabulary_column_alignment ["b", "a"] [["a"]] [["b"]]
      [[true, false]] [[false, true]] (by with_unfolding_all rfl)⟩

/-- Helper: when every metric computation succeeds, the report content is
the four metric lines in their source order, each carrying the value the
corresponding metric call returned. -/
theorem evalReport_ok_content (y p : List (List Bool)) (s : List (List ℚ))
    (h : (evalReportContent y p s).2 = true) :
    ∃ a f pr r : ℚ,
      accuracy_score y p = Except.ok a ∧ f1_score y p = Except.ok f ∧
      average_precision_score y (matToScores p) = Except.ok pr ∧
      roc_auc_score y s = Except.ok r ∧
      (evalReportContent y p s).1
        = "Accuracy score: " ++ toString a ++ "\n"
          ++ ("F1 score: " ++ toString f ++ "\n")
          ++ ("Average precision score: " ++ toString pr ++ "\n")
          ++ ("ROC AUC score: " ++ toString r ++ "\n") := by
  cases hA : accuracy_score y p with
  | error e => simp [evalReportContent, hA] at h
  | ok a =>
    cases hF : f1_score y p with
    | error e => simp [evalReportContent, hA, hF] at h
    | ok f =>
      cases hP : average_precision_score y (matToScores p) with
      | error e => simp [evalReportContent, hA, hF, hP] at h
      | ok pr =>
        cases hR : roc_auc_score y s with
        | error e => simp [evalReportContent, hA, hF, hP, hR] at h
        | ok r =>
          refine ⟨a, f, pr, r, rfl, rfl, rfl, rfl, ?_⟩
          simp only [evalReportContent, hA, hF, hP, hR]
          simp only [String.append_assoc]

/-- C4: whenever the evaluation completes its report, the emitted text is
exactly the four lines "Accuracy score: <v>\n", "F1 score: <v>\n",
"Average precision score: <v>\n", "ROC AUC score: <v>\n" in this fixed
order: exact-match accuracy first, weighted F1 second, macro average
precision third, ROC AUC fourth. -/
theorem report_four_lines_in_order (fName : String) (yVal predLabels : List (List Bool))
    (predScores : List (List ℚ))
    (h : (write_evaluation_scores fName yVal predLabels predScores).ok = true) :
    ∃ a f p r : ℚ,
      accuracy_score yVal predLabels = Except.ok a ∧
      f1_score yVal predLabels = Except.ok f ∧
      average_precision_score yVal (matToScores predLabels) = Except.ok p ∧
      roc_auc_score yVal predScores = Except.ok r ∧
      (write_evaluation_scores fName yVal predLabels predScores).content
        = "Accuracy score: " ++ toString a ++ "\n"
          ++ ("F1 score: " ++ toString f ++ "\n")
          ++ ("Average precision score: " ++ toString p ++ "\n")
          ++ ("ROC AUC score: " ++ toString r ++ "\n") := by
  obtain ⟨a, f, p, r, h1, h2, h3, h4, h5⟩ := evalReport_ok_content yVal predLabels predScores h
  exact ⟨a, f, p, r, h1, h2, h3, h4, h5⟩

/-- C4 witness: a 2-label run on which all four metrics succeed. -/
theorem report_four_lines_in_order_witness :
    (write_evaluation_scores "stats.txt" [[true, false], [false, true]]
        [[true, false], [false, true]] [[(2 : ℚ), 0], [1, 3]]).ok = true ∧
      ∃ a f p r : ℚ,
        accuracy_score [[true, false], [false, true]] [[true, false], [false, true]]
          = Except.ok a ∧
        f1_score [[true, false], [false, true]] [[true, false], [false, true]]
          = Except.ok f ∧
        average_precision_score [[true, false], [false, true]]
            (matToScores [[true, false], [false, true]]) = Except.ok p ∧
        roc_auc_score [[true, false], [false, true]] [[(2 : ℚ), 0], [1, 3]] = Except.ok r ∧
        (write_evaluation_scores "stats.txt" [[true, false], [false, true]]
            [[true, false], [false, true]] [[(2 : ℚ), 0], [1, 3]]).content
          = "Accuracy score: " ++ toString a ++ "\n"
            ++ ("F1 score: " ++ toString f ++ "\n")
            ++ ("Average precision score: " ++ toString p ++ "\n")
            ++ ("ROC AUC score: " ++ toString r ++ "\n") :=
  ⟨by with_unfolding_all rfl,
    report_four_lines_in_order "stats.txt" [[true, false], [false, true]]
      [[true, false], [false, true]] [[(2 : ℚ), 0], [1, 3]] (by with_unfolding_all rfl)⟩

/-- C1 counterexample: at this input the emitted third line carries the
macro average precision of the discrete pred_labels, 1/2, although the
macro average precision computed from the continuous pred_scores is 1:
the reported metric is not computed from pred_scores. -/
theorem avg_precision_uses_pred_labels_cex :
    (write_evaluation_scores "stats.txt" [[true, false], [false, true]]
        [[true, true], [true, true]] [[(2 : ℚ), -1], [-3, 1 / 2]]).content
      = "Accuracy score: 0\nF1 score: 2/3\nAverage precision score: 1/2\nROC AUC score: 1\n" ∧
      average_precision_score [[true, false], [false, true]]
          (matToScores [[true, true], [true, true]]) = Except.ok (1 / 2) ∧
      average_precision_score [[true, false], [false, true]] [[(2 : ℚ), -1], [-3, 1 / 2]]
        = Except.ok 1 ∧
      ((1 : ℚ) / 2 ≠ 1) := by
  refine ⟨?_, ?_, ?_, ?_⟩
  · with_unfolding_all rfl
  · with_unfolding_all rfl
  · with_unfolding_all rfl
  · norm_num

/-- C1 (amended): the macro average precision line of the report is
computed from the discrete predicted labels (pred_labels), not from
pred_scores: per label, average precision of the label column of
pred_labels (read as scores) ranked against the true column, then
averaged unweighted across the labels. -/
theorem avg_precision_from_pred_labels (fName : String) (yVal predLabels : List (List Bool))
    (predScores : List (List ℚ))
    (h : (write_evaluation_scores fName yVal predLabels predScores).ok = true) :
    ∃ pre post : String,
      (write_evaluation_scores fName yVal predLabels predScores).content
        = pre
          ++ ("Average precision score: "
            ++ toString
              ((((List.range (ncols yVal)).map
                    (fun j => apBinary (colB yVal j) (colQ (matToScores predLabels) j))).sum)
                / (ncols yVal : ℚ))
            ++ "\n")
          ++ post := by
  obtain ⟨a, f, p, r, h1, h2, h3, h4, h5⟩ := evalReport_ok_content yVal predLabels predScores h
  have hp : p = (((List.range (ncols yVal)).map
        (fun j => apBinary (colB yVal j) (colQ (matToScores predLabels) j))).sum)
      / (ncols yVal : ℚ) := by
    unfold average_precision_score at h3
    split at h3
    · exact (Except.ok.inj h3).symm
    · exact absurd h3 (by simp)
  refine ⟨"Accuracy score: " ++ toString a ++ "\n" ++ ("F1 score: " ++ toString f ++ "\n"),
    "ROC AUC score: " ++ toString r ++ "\n", ?_⟩
  show (evalReportContent yVal predLabels predScores).1 = _
  rw [h5, ← hp]

/-- C1 witness: a 2-label run on which the report completes. -/
theorem avg_precision_from_pred_labels_witness :
    (write_evaluation_scores "stats.txt" [[true, false], [false, true]]
        [[true, false], [false, true]] [[(2 : ℚ), 0], [1, 3]]).ok = true ∧
      ∃ pre post : String,
        (write_evaluation_scores "stats.txt" [[true, false], [false, true]]
            [[true, false], [false, true]] [[(2 : ℚ), 0], [1, 3]]).content
          = pre
            ++ ("Average precision score: "
              ++ toString
                ((((List.range (ncols [[true, false], [false, true]])).map
                      (fun j => apBinary (colB [[true, false], [false, true]] j)
                        (colQ (matToScores [[true, false], [false, true]]) j))).sum)
                  / (ncols [[true, false], [false, true]] : ℚ))
              ++ "\n")
            ++ post :=
  ⟨by with_unfolding_all rfl,
    avg_precision_from_pred_labels "stats.txt" [[true, false], [false, true]]
      [[true, false], [false, true]] [[(2 : ℚ), 0], [1, 3]] (by with_unfolding_all rfl)⟩

/-- C2 counterexample: on this input the first three metrics succeed and
are written, then the ROC AUC computation fails (the second true column
is constant), so the run fails leaving a non-empty three-line partial
report: the evaluation step is not atomic. -/
theorem partial_report_on_roc_failure_cex :
    (write_evaluation_scores "stats.txt" [[true, true], [false, true]]
        [[true, false], [false, true]] [[(1 : ℚ), 0], [0, 1]]).ok = false ∧
      (write_evaluation_scores "stats.txt" [[true, true], [false, true]]
          [[true, false], [false, true]] [[(1 : ℚ), 0], [0, 1]]).content
        = "Accuracy score: 1/2\nF1 score: 7/9\nAverage precision score: 1\n" ∧
      (write_evaluation_scores "stats.txt" [[true, true], [false, true]]
          [[true, false], [false, true]] [[(1 : ℚ), 0], [0, 1]]).content ≠ "" := by
  refine ⟨?_, ?_, ?_⟩
  · with_unfolding_all rfl
  · with_unfolding_all rfl
  · with_unfolding_all decide

/-- C2 (amended): the report is written one metric line at a time; when
the first three metrics succeed and the ROC AUC computation then fails,
the run fails and the report file holds exactly the first three lines (a
partial report), rather than all four lines or nothing. -/
theorem report_prefix_on_roc_failure (fName : String) (yVal predLabels : List (List Bool))
    (predScores : List (List ℚ)) (a f p : ℚ) (e : String)
    (h1 : accuracy_score yVal predLabels = Except.ok a)
    (h2 : f1_score yVal predLabels = Except.ok f)
    (h3 : average_precision_score yVal (matToScores predLabels) = Except.ok p)
    (h4 : roc_auc_score yVal predScores = Except.error e) :
    (write_evaluation_scores fName yVal predLabels predScores).ok = false ∧
      (write_evaluation_scores fName yVal predLabels predScores).content
        = "Accuracy score: " ++ toString a ++ "\n"
          ++ ("F1 score: " ++ toString f ++ "\n")
          ++ ("Average precision score: " ++ toString p ++ "\n") := by
  constructor
  · show (evalReportContent yVal predLabels predScores).2 = false
    simp [evalReportContent, h1, h2, h3, h4]
  · show (evalReportContent yVal predLabels predScores).1 = _
    simp only [evalReportContent, h1, h2, h3, h4]
    simp only [String.append_assoc]

/-- C2 witness: the concrete partial-failure run, with the three
successful metric values and the ROC AUC error instantiated. -/
theorem report_prefix_on_roc_failure_witness :
    accuracy_score [[true, true], [false, true]] [[true, false], [false, true]]
        = Except.ok (1 / 2) ∧
      f1_score [[true, true], [false, true]] [[true, false], [false, true]]
        = Except.ok (7 / 9) ∧
      average_precision_score [[true, true], [false, true]]
          (matToScores [[true, false], [false, true]]) = Except.ok 1 ∧
      roc_auc_score [[true, true], [false, true]] [[(1 : ℚ), 0], [0, 1]]
        = Except.error
            "Only one class present in y_true. ROC AUC score is not defined in that case." ∧
      ((write_evaluation_scores "stats.txt" [[true, true], [false, true]]
            [[true, false], [false, true]] [[(1 : ℚ), 0], [0, 1]]).ok = false ∧
        (write_evaluation_scores "stats.txt" [[true, true], [false, true]]
            [[true, false], [false, true]] [[(1 : ℚ), 0], [0, 1]]).content
          = "Accuracy score: " ++ toString ((1 : ℚ) / 2) ++ "\n"
            ++ ("F1 score: " ++ toString ((7 : ℚ) / 9) ++ "\n")
            ++ ("Average precision score: " ++ toString (1 : ℚ) ++ "\n")) :=
  ⟨by with_unfolding_all rfl, by with_unfolding_all rfl, by with_unfolding_all rfl,
    by with_unfolding_all rfl,
    report_prefix_on_roc_failure "stats.txt" [[true, true], [false, true]]
      [[true, false], [false, true]] [[(1 : ℚ), 0], [0, 1]] (1 / 2) (7 / 9) 1
      "Only one class present in y_true. ROC AUC score is not defined in that case."
      (by with_unfolding_all rfl) (by with_unfolding_all rfl) (by with_unfolding_all rfl)
      (by with_unfolding_all rfl)⟩

/-- C7 counterexample: on a one-hot three-label input the code's fourth
metric is 8/9 — the per-label one-vs-rest AUC averaged across labels —
while the spec's one-vs-one pairwise AUC averaged across label pairs is
5/6; the emitted line shows 8/9, so the reported metric is not the
pairwise one-vs-one average. -/
theorem roc_auc_not_ovo_cex :
    roc_auc_score
        [[true, false, false], [false, true, false], [false, true, false],
          [false, false, true]]
        [[(2 : ℚ), 0, 0], [1, 5, 1], [1, 5, 1], [3, 1, 5]] = Except.ok (8 / 9) ∧
      specPairwiseOvoRocAuc
          [[true, false, false], [false, true, false], [false, true, false],
            [false, false, true]]
          [[(2 : ℚ), 0, 0], [1, 5, 1], [1, 5, 1], [3, 1, 5]] = some (5 / 6) ∧
      ((8 : ℚ) / 9 ≠ 5 / 6) ∧
      (write_evaluation_scores "stats.txt"
          [[true, false, false], [false, true, false], [false, true, false],
            [false, false, true]]
          [[true, false, false], [false, true, false], [false, true, false],
            [false, false, true]]
          [[(2 : ℚ), 0, 0], [1, 5, 1], [1, 5, 1], [3, 1, 5]]).content
        = "Accuracy score: 1\nF1 score: 1\nAverage precision score: 1\nROC AUC score: 8/9\n" := by
  refine ⟨?_, ?_, ?_, ?_⟩
  · with_unfolding_all rfl
  · with_unfolding_all rfl
  · norm_num
  · with_unfolding_all rfl

/-- C7 (amended): the fourth reported metric is the per-label
(one-vs-rest) binary ROC AUC of the continuous prediction scores,
averaged unweighted across labels: `y_val` is a multilabel indicator
matrix, so scikit-learn takes its multilabel branch and never reads the
`multi_class="ovo"` argument. -/
theorem roc_auc_per_label_ovr (fName : String) (yVal predLabels : List (List Bool))
    (predScores : List (List ℚ))
    (h : (write_evaluation_scores fName yVal predLabels predScores).ok = true) :
    ∃ (pre : String) (aucs : List ℚ),
      (List.range (ncols yVal)).mapM (fun j => aucBinary (colB yVal j) (colQ predScores j))
        = Except.ok aucs ∧
      (write_evaluation_scores fName yVal predLabels predScores).content
        = pre ++ ("ROC AUC score: " ++ toString (aucs.sum / (ncols yVal : ℚ)) ++ "\n") := by
  obtain ⟨a, f, p, r, h1, h2, h3, h4, h5⟩ := evalReport_ok_content yVal predLabels predScores h
  unfold roc_auc_score at h4
  split at h4
  · cases hm : (List.range (ncols yVal)).mapM
        (fun j => aucBinary (colB yVal j) (colQ predScores j)) with
    | error e => rw [hm] at h4; simp at h4
    | ok aucs =>
      rw [hm] at h4
      have hr : aucs.sum / (ncols yVal : ℚ) = r := Except.ok.inj h4
      refine ⟨"Accuracy score: " ++ toString a ++ "\n" ++ ("F1 score: " ++ toString f ++ "\n")
        ++ ("Average precision score: " ++ toString p ++ "\n"), aucs, rfl, ?_⟩
      show (evalReportContent yVal predLabels predScores).1 = _
      rw [h5, hr]
  · exact absurd h4 (by simp)

/-- C7 witness: a 2-label run with both per-label AUCs defined. -/
theorem roc_auc_per_label_ovr_witness :
    (write_evaluation_scores "stats.txt" [[true, false], [false, true]]
        [[true, false], [false, true]] [[(2 : ℚ), 1], [1, 3]]).ok = true ∧
      ∃ (pre : String) (aucs : List ℚ),
        (List.range (ncols [[true, false], [false, true]])).mapM
            (fun j => aucBinary (colB [[true, false], [false, true]] j)
              (colQ [[(2 : ℚ), 1], [1, 3]] j))
          = Except.ok aucs ∧
        (write_evaluation_scores "stats.txt" [[true, false], [false, true]]
            [[true, false], [false, true]] [[(2 : ℚ), 1], [1, 3]]).content
          = pre
            ++ ("ROC AUC score: "
              ++ toString (aucs.sum / (ncols [[true, false], [false, true]] : ℚ)) ++ "\n") :=
  ⟨by with_unfolding_all rfl,
    roc_auc_per_label_ovr "stats.txt" [[true, false], [false, true]]
      [[true, false], [false, true]] [[(2 : ℚ), 1], [1, 3]] (by with_unfolding_all rfl)⟩

